import Mathlib

/-!
Verification of the generation-job orchestration layer of ganglia_studio.

The definitions below are a shallow embedding of the Python sources:
  * `src/ganglia_studio/music/music_lib.py` (exponential backoff, the
    retrying orchestrator `MusicGenerator`),
  * `src/ganglia_studio/music/backends/base.py` (`wait_for_completion`),
  * `src/ganglia_studio/music/backends/suno_api_org.py` (progress
    interpretation),
  * `src/ganglia_studio/video/story_processor.py` (the pipeline
    orchestrator `process_story`).

Remote backends, the worker pool and the filesystem are modelled as
explicit environments: each future carries the value it eventually
resolves to (or the exception it raises).  Python floats are modelled as
rationals, `time.time()` as explicit elapsed-time parameters, and
unbounded loops by fuel.
-/

namespace GangliaStudio

/-- Python exception classes relevant to the orchestrator.  `otherExc`
stands for any exception class outside the tuple
`(OSError, RuntimeError, ValueError, TimeoutError)` that the music
library catches, e.g. `KeyError` or a `requests` exception type. -/
inductive PyErr
  | osError
  | runtimeError
  | valueError
  | timeoutError
  | otherExc
  deriving DecidableEq, Repr

/-- Returns `true` for the exception classes named in the `except` clauses of
`MusicGenerator._try_generate_with_retries` and
`MusicGenerator._try_generate_with_backend`:
`except (OSError, RuntimeError, ValueError, TimeoutError)`. -/
def caughtByMusicLib : PyErr → Bool
  | .osError => true
  | .runtimeError => true
  | .valueError => true
  | .timeoutError => true
  | .otherExc => false

/-- The function `_exponential_backoff(attempt, base_delay=1, max_delay=5)` from
`music_lib.py`.  The byte drawn from `os.urandom(1)` divided by 255 is
the parameter `r ∈ [0,1]`; floats are modelled as rationals.

```python
delay = min(base_delay * (2**attempt), max_delay)
if delay >= max_delay:
    return max_delay
if delay > max_delay * 0.9:
    max_jitter = min(delay * 0.1, max_delay - delay)
    return delay + (max_jitter * r)
jitter = delay * 0.1
return delay + (jitter * (2 * r - 1))
``` -/
def exponential_backoff (attempt : Nat) (base_delay max_delay r : ℚ) : ℚ :=
  let delay := min (base_delay * 2 ^ attempt) max_delay
  if max_delay ≤ delay then max_delay
  else if max_delay * (9 / 10) < delay then
    let maxJitter := min (delay * (1 / 10)) (max_delay - delay)
    delay + maxJitter * r
  else
    delay + (delay * (1 / 10)) * (2 * r - 1)

/-- A value returned by `MusicGenerator._try_generate_with_backend` (and
by `backend.get_result`): the Python type `str | tuple[str | None, str | None] | None`. -/
inductive BackendRet
  | none
  | str (s : String)
  | pair (a b : Option String)
  deriving DecidableEq, Repr

/-- Python truthiness of a `str | tuple | None` value: `None` and the
empty string are falsy; a (2-element, hence non-empty) tuple is always
truthy. -/
def BackendRet.truthy : BackendRet → Bool
  | .none => false
  | .str s => !s.isEmpty
  | .pair _ _ => true

/-- Python truthiness of an optional string (`None` and `""` are falsy). -/
def optTruthy : Option String → Bool
  | Option.none => false
  | Option.some s => !s.isEmpty

/-- The normalisation performed at every success return of
`_try_generate_with_retries` and of the fallback branch of
`generate_instrumental`:

```python
if isinstance(result, tuple):
    return result
return result, None
``` -/
def normalizeRet : BackendRet → Option String × Option String
  | .none => (Option.none, Option.none)
  | .str s => (Option.some s, Option.none)
  | .pair a b => (a, b)

/-- Behaviour of one generation attempt against a backend: what each of
the backend operations used by `_try_generate_with_backend` returns (or
which exception it raises), plus whether the `shutil.copy2` at the end
succeeds.  `checkProgress` is the stream of `(status, progress)` pairs
returned by successive polls. -/
structure BackendOps where
  startGen : Except PyErr (Option String)
  checkProgress : Nat → Except PyErr (String × ℚ)
  getResult : Except PyErr BackendRet
  copyOk : Bool

/-- The inline poll loop shared by `_try_generate_with_backend`,
`generate_with_lyrics` (music_lib.py) and the suno backends:

```python
while True:
    status, progress = backend.check_progress(job_id)
    if progress >= 100:
        break
    time.sleep(5)
```

The loop has no timeout; `fuel` bounds how many polls the model unrolls,
and `Option.none` means the loop was still running when the fuel ran
out. -/
def pollLoop (check : Nat → Except PyErr (String × ℚ)) :
    Nat → Nat → Option (Except PyErr Unit)
  | 0, _ => Option.none
  | fuel + 1, k =>
    match check k with
    | .error e => Option.some (.error e)
    | .ok (_, p) =>
      if 100 ≤ p then Option.some (.ok ()) else pollLoop check fuel (k + 1)

/-- The copy-to-output-path epilogue of `_try_generate_with_backend`
(music_lib.py lines 234-250): copy failures (`OSError`) are caught
locally and the pre-copy result is returned instead. -/
def instrCopyStep (r : BackendRet) (outputPath : Option String) (copyOk : Bool) :
    BackendRet :=
  match outputPath, r with
  | Option.some p, .str _ => if copyOk then .str p else r
  | Option.some p, .pair a b =>
    if optTruthy a then (if copyOk then .pair (Option.some p) b else r) else r
  | _, _ => r

/-- The `try` body of `MusicGenerator._try_generate_with_backend`:
start the job, poll until a progress of at least 100 is reported, fetch
the result, then optionally copy it to `output_path`.  The outer
`Option` is `none` when the poll loop was still running after `fuel`
polls. -/
def tryGenerateWithBackendBody (ops : BackendOps) (outputPath : Option String)
    (fuel : Nat) : Option (Except PyErr BackendRet) :=
  match ops.startGen with
  | .error e => Option.some (.error e)
  | .ok j =>
    if optTruthy j then
      match pollLoop ops.checkProgress fuel 0 with
      | Option.none => Option.none
      | Option.some (.error e) => Option.some (.error e)
      | Option.some (.ok _) =>
        match ops.getResult with
        | .error e => Option.some (.error e)
        | .ok r =>
          if r.truthy then Option.some (.ok (instrCopyStep r outputPath ops.copyOk))
          else Option.some (.ok .none)
    else Option.some (.ok .none)

/-- The method `MusicGenerator._try_generate_with_backend`: the body above wrapped
in `except (OSError, RuntimeError, ValueError, TimeoutError): return None`.
Exceptions of any other class propagate to the caller. -/
def tryGenerateWithBackend (ops : BackendOps) (outputPath : Option String)
    (fuel : Nat) : Option (Except PyErr BackendRet) :=
  match tryGenerateWithBackendBody ops outputPath fuel with
  | Option.some (.error e) =>
    if caughtByMusicLib e then Option.some (.ok .none) else Option.some (.error e)
  | x => x

/-- The constant `MusicGenerator.MAX_RETRIES`. -/
def MAX_RETRIES : Nat := 5

/-- The loop body of `MusicGenerator._try_generate_with_retries`,
parameterised by the outcome `att k` of the `k`-th call to
`_try_generate_with_backend` (which has already absorbed the exception
classes it catches itself).  Returns the return value of the method together
with the number of attempts (calls to `_try_generate_with_backend`)
actually made.  The first argument of the loop is the number of
iterations the `range` iterator still has left, the second the current
attempt index:

```python
for attempt in range(self.MAX_RETRIES):
    try:
        result = self._try_generate_with_backend(...)
        if result:
            if isinstance(result, tuple):
                return result
            return result, None
        if attempt < self.MAX_RETRIES - 1:
            continue
        else:
            return None, None
    except (OSError, RuntimeError, ValueError, TimeoutError):
        if attempt == self.MAX_RETRIES - 1:
            return None, None
return None, None
``` -/
def retriesLoop (att : Nat → Except PyErr BackendRet) :
    Nat → Nat → Except PyErr (Option String × Option String) × Nat
  | 0, _ => (.ok (Option.none, Option.none), 0)
  | rem + 1, k =>
    match att k with
    | .ok r =>
      if r.truthy then (.ok (normalizeRet r), 1)
      else if k < MAX_RETRIES - 1 then
        let (o, c) := retriesLoop att rem (k + 1); (o, c + 1)
      else (.ok (Option.none, Option.none), 1)
    | .error e =>
      if caughtByMusicLib e then
        if k = MAX_RETRIES - 1 then (.ok (Option.none, Option.none), 1)
        else let (o, c) := retriesLoop att rem (k + 1); (o, c + 1)
      else (.error e, 1)

/-- The method `MusicGenerator._try_generate_with_retries` (result, attempts made):
the loop above entered with `MAX_RETRIES` remaining iterations at
attempt index 0 — `for attempt in range(self.MAX_RETRIES)`. -/
def tryGenerateWithRetries (att : Nat → Except PyErr BackendRet) :
    Except PyErr (Option String × Option String) × Nat :=
  retriesLoop att MAX_RETRIES 0

/-- Outcome of one `generate_instrumental` call, with the number of
primary attempts and fallback attempts instrumented. -/
structure InstrumentalRun where
  ret : Except PyErr (Option String × Option String)
  primaryCalls : Nat
  fallbackCalls : Nat
  deriving Repr

/-- The method `MusicGenerator.generate_instrumental`: primary backend with
retries, then — only if the first component of the primary result is falsy
and a fallback backend is configured — a single call of
`_try_generate_with_backend` on the fallback.  `fb = none` models
`self.fallback_backend is None`; otherwise `fb` is the outcome of the
single fallback attempt. -/
def generateInstrumental (att : Nat → Except PyErr BackendRet)
    (fb : Option (Except PyErr BackendRet)) : InstrumentalRun :=
  match tryGenerateWithRetries att with
  | (.error e, c) => ⟨.error e, c, 0⟩
  | (.ok (a, b), c) =>
    if optTruthy a then ⟨.ok (a, b), c, 0⟩
    else
      match fb with
      | Option.none => ⟨.ok (Option.none, Option.none), c, 0⟩
      | Option.some (.error e) => ⟨.error e, c, 1⟩
      | Option.some (.ok r) =>
        if r.truthy then ⟨.ok (normalizeRet r), c, 1⟩
        else ⟨.ok (Option.none, Option.none), c, 1⟩

/-- A value returned by `MusicGenerator.generate_with_lyrics`: despite
the `tuple[str, str]` annotation the final `return result` can also
yield a bare string. -/
inductive LyricsRet
  | pair (a b : Option String)
  | str (s : String)
  deriving DecidableEq, Repr

/-- The copy-to-output-path epilogue of `generate_with_lyrics`
(music_lib.py lines 311-323). -/
def lyricsCopyStep (r : BackendRet) (outputPath : Option String) (copyOk : Bool) :
    LyricsRet :=
  match outputPath, r with
  | Option.some p, .pair a b =>
    if optTruthy a then
      (if copyOk then .pair (Option.some p) b else .pair a b)
    else .pair a b
  | _, .pair a b => .pair a b
  | _, .str s => .str s
  | _, .none => .pair Option.none Option.none

/-- Outcome of one `generate_with_lyrics` call.  `ret = none` means the
poll loop was still running when the fuel ran out; `primaryStarts` is
the number of `start_generation` calls on the primary backend, and
`fallbackCalls` the number of calls on the fallback backend (the method
body never references `self.fallback_backend`). -/
structure LyricsRun where
  ret : Option (Except PyErr LyricsRet)
  primaryStarts : Nat
  fallbackCalls : Nat

/-- The method `MusicGenerator.generate_with_lyrics` (music_lib.py lines 256-323):
one `start_generation` call, an unguarded poll loop, one `get_result`
call, then the copy epilogue.  There is no retry loop, no fallback, and
no `try`/`except`: any exception raised by a backend operation
propagates to the caller. -/
def generateWithLyrics (ops : BackendOps) (outputPath : Option String)
    (fuel : Nat) : LyricsRun :=
  match ops.startGen with
  | .error e => ⟨Option.some (.error e), 1, 0⟩
  | .ok j =>
    if optTruthy j then
      match pollLoop ops.checkProgress fuel 0 with
      | Option.none => ⟨Option.none, 1, 0⟩
      | Option.some (.error e) => ⟨Option.some (.error e), 1, 0⟩
      | Option.some (.ok _) =>
        match ops.getResult with
        | .error e => ⟨Option.some (.error e), 1, 0⟩
        | .ok r =>
          if r.truthy then
            ⟨Option.some (.ok (lyricsCopyStep r outputPath ops.copyOk)), 1, 0⟩
          else ⟨Option.some (.ok (.pair Option.none Option.none)), 1, 0⟩
    else ⟨Option.some (.ok (.pair Option.none Option.none)), 1, 0⟩

/-- A future collected by `_collect_task_results` (story_processor.py),
tagged the way `_submit_parallel_tasks` tags it, carrying the value it
resolves to — or the exception that `future.result()` re-raises.  A
segment future is stored as `("segment", (i, future))` and resolves to
the `(video_path, index)` pair returned by `process_sentence`. -/
inductive TaskFuture
  | moviePoster (r : Except PyErr (Option String))
  | backgroundMusic (r : Except PyErr (Option String))
  | closingCredits (r : Except PyErr (Option String × Option String))
  | segment (idx : Nat) (r : Except PyErr (Option String × Nat))

/-- The mutable locals of `_collect_task_results`. -/
structure CollectState where
  moviePoster : Option String := Option.none
  backgroundMusic : Option String := Option.none
  closingCredits : Option String := Option.none
  closingCreditsLyrics : Option String := Option.none
  segments : List String := []
  segmentIndices : List Nat := []
  deriving Repr

/-- One iteration of the `for task_type, future in futures` loop of
`_collect_task_results`: resolve the future, store its value in the
field for its task type; an exception is caught per task and, except
for background music (which is explicitly reset to `None`), leaves the
state unchanged.  A segment result is appended only if both the tuple
and its path component are truthy. -/
def collectStep (st : CollectState) : TaskFuture → CollectState
  | .moviePoster (.ok v) => { st with moviePoster := v }
  | .moviePoster (.error _) => st
  | .backgroundMusic (.ok v) => { st with backgroundMusic := v }
  | .backgroundMusic (.error _) => { st with backgroundMusic := Option.none }
  | .closingCredits (.ok (p, l)) =>
    { st with closingCredits := p, closingCreditsLyrics := l }
  | .closingCredits (.error _) => st
  | .segment _ (.ok (p, i)) =>
    match p with
    | Option.some s =>
      if s.isEmpty then st
      else { st with segments := st.segments ++ [s],
                     segmentIndices := st.segmentIndices ++ [i] }
    | Option.none => st
  | .segment _ (.error _) => st

/-- The function `_collect_task_results`: fold the step over the futures in
submission order (the code iterates the `futures` list, not completion
order). -/
def collect_task_results (futures : List TaskFuture) : CollectState :=
  futures.foldl collectStep {}

/-- Stable insertion of a pair into a list already sorted by the second
component, after all entries with a key less than or equal to its key. -/
def insertByIdx (x : String × Nat) : List (String × Nat) → List (String × Nat)
  | [] => [x]
  | y :: ys => if y.2 ≤ x.2 then y :: insertByIdx x ys else x :: y :: ys

/-- The stable Python sort `sorted(pairs, key=lambda x: x[1])`.  (Any stable
sort by the key is extensionally the same function, so this insertion
sort is a faithful model of Timsort here.) -/
def pySortedByIdx (l : List (String × Nat)) : List (String × Nat) :=
  l.foldl (fun acc x => insertByIdx x acc) []

/-- The function `_order_segments(segments, indices)`:
`sorted(zip(segments, indices), key=lambda x: x[1])`, keeping the paths. -/
def order_segments (segments : List String) (indices : List Nat) : List String :=
  (pySortedByIdx (segments.zip indices)).map Prod.fst

/-- Environment of one `process_story` invocation: the resolved value of
each auxiliary future, if the corresponding task was submitted at all
(`none` models the submission guards in `_submit_parallel_tasks`), and
the path component of the `(path, i)` pair that the segment task for
index `i` resolves to.  `process_sentence` returns its own submitted
index `i` as the second component on every return path, so only the
path component varies.  The values are fixed per future, so the model
is independent of the order in which the concurrent tasks complete. -/
structure StoryEnv where
  poster : Option (Except PyErr (Option String))
  bgm : Option (Except PyErr (Option String))
  credits : Option (Except PyErr (Option String × Option String))
  seg : Nat → Except PyErr (Option String)

/-- The zero-or-one futures contributed by one auxiliary submission
helper. -/
def optFuture {α : Type} (mk : α → TaskFuture) : Option α → List TaskFuture
  | Option.none => []
  | Option.some r => [mk r]

/-- The futures list built by `_submit_parallel_tasks`: movie poster,
background music, closing credits, then one segment future per sentence
of the story, in index order. -/
def buildFutures (env : StoryEnv) (n : Nat) : List TaskFuture :=
  optFuture TaskFuture.moviePoster env.poster
    ++ optFuture TaskFuture.backgroundMusic env.bgm
    ++ optFuture TaskFuture.closingCredits env.credits
    ++ (List.range n).map (fun i => TaskFuture.segment i ((env.seg i).map (fun p => (p, i))))

/-- The return type of `process_story`: the ordered segment list (or
`None`), background music path, closing credits path, movie poster
path, closing credits lyrics. -/
def StoryRet : Type :=
  Option (List String) × Option String × Option String × Option String × Option String

/-- The `try` body of `process_story`: raise `ValueError` on an empty
story, submit all tasks, collect results, return the all-`None` tuple
if no segment succeeded, otherwise the ordered segments together with
the auxiliary fields. -/
def processStoryBody (story : List String) (env : StoryEnv) :
    Except PyErr StoryRet :=
  if story.isEmpty then .error .valueError
  else
    let st := collect_task_results (buildFutures env story.length)
    if st.segments.isEmpty then
      .ok (Option.none, Option.none, Option.none, Option.none, Option.none)
    else
      .ok (Option.some (order_segments st.segments st.segmentIndices),
           st.backgroundMusic, st.closingCredits, st.moviePoster,
           st.closingCreditsLyrics)

/-- The function `process_story`: the body wrapped in `except Exception: return
None, None, None, None, None` — every internal exception, including the
`ValueError` raised for an empty story, is caught by the handler inside
the function itself. -/
def process_story (story : List String) (env : StoryEnv) : StoryRet :=
  match processStoryBody story env with
  | .ok r => r
  | .error _ => (Option.none, Option.none, Option.none, Option.none, Option.none)

/-- Whether the segment task for index `i` succeeds (its
`process_sentence` call returns a truthy path), and with which path. -/
def segSuccess (env : StoryEnv) (i : Nat) : Option (String × Nat) :=
  match env.seg i with
  | .ok (Option.some s) => if s.isEmpty then Option.none else Option.some (s, i)
  | _ => Option.none

/-- The segment tasks that succeed, with their indices, in submission
order. -/
def successfulSegments (env : StoryEnv) (n : Nat) : List (String × Nat) :=
  (List.range n).filterMap (segSuccess env)

/-- What one `check_progress` call on `SunoApiOrgBackend` learns from
the remote service: either an API/transport error (HTTP status ≠ 200,
API code ≠ 200, or a caught exception — all three return `("Error:…", 0)`),
or the reported task status.  For the two success statuses, `hasUrl`
records whether `response.sunoData[0].streamAudioUrl` is present. -/
inductive RemoteStatus
  | apiError
  | pending
  | textSuccess
  | processing
  | createTaskFailed
  | generateAudioFailed
  | callbackException
  | sensitiveWordError
  | success (hasUrl : Bool)
  | firstSuccess (hasUrl : Bool)
  | unexpected (s : String)
  deriving DecidableEq, Repr

/-- The synthesised `base_progress = min(99.0, (elapsed / 120) * 100)` from
`SunoApiOrgBackend.check_progress` (expected_duration = 120). -/
def baseProgress (elapsed : ℚ) : ℚ :=
  min 99 (elapsed / 120 * 100)

/-- The method `SunoApiOrgBackend._check_success_state`: a success status with a
stream audio URL is `("complete", 100.0)`; without one it is reported
as still finalizing at 99.0. -/
def check_success_state (hasUrl : Bool) (title timeStatus : String) :
    String × ℚ :=
  if hasUrl then ("complete", 100)
  else (title ++ " - Finalizing " ++ timeStatus, 99)

/-- The method `SunoApiOrgBackend._interpret_status` composed with the error paths
of `check_progress`: the `(status message, progress)` pair returned for
one remote report, given the synthesised `base_progress`. -/
def interpret_status (s : RemoteStatus) (title timeStatus : String)
    (base_progress : ℚ) : String × ℚ :=
  match s with
  | .apiError => ("Error", 0)
  | .pending => (title ++ " - Initializing " ++ timeStatus, min 20 base_progress)
  | .textSuccess =>
    (title ++ " - Processing lyrics " ++ timeStatus, min 99 (base_progress + 20))
  | .processing => (title ++ " - Processing " ++ timeStatus, base_progress)
  | .createTaskFailed => (title ++ " - Error: Task creation failed", 0)
  | .generateAudioFailed => (title ++ " - Error: Audio generation failed", 0)
  | .callbackException => (title ++ " - Error: Callback failed", 0)
  | .sensitiveWordError => (title ++ " - Error: Contains sensitive words", 0)
  | .success hasUrl => check_success_state hasUrl title timeStatus
  | .firstSuccess hasUrl => check_success_state hasUrl title timeStatus
  | .unexpected raw => (title ++ " - " ++ raw ++ " " ++ timeStatus, base_progress)

/-- The method `SunoApiOrgBackend.check_progress` for a job whose recorded start
time is `elapsed` seconds in the past at the moment of the call. -/
def check_progress (s : RemoteStatus) (elapsed : ℚ) (title timeStatus : String) :
    String × ℚ :=
  interpret_status s title timeStatus (baseProgress elapsed)

/-- Rank of the in-progress (non-terminal) remote statuses along the
remote pipeline `PENDING → PROCESSING → TEXT_SUCCESS → SUCCESS without
URL`; `none` for terminal or error reports. -/
def inProgressRank : RemoteStatus → Option Nat
  | .pending => Option.some 0
  | .processing => Option.some 1
  | .textSuccess => Option.some 2
  | .success false => Option.some 3
  | .firstSuccess false => Option.some 3
  | _ => Option.none

/-- The method `MusicBackend.wait_for_completion` (backends/base.py):

```python
start_time = time.time()
while time.time() - start_time < timeout:
    status, progress = self.check_progress(job_id)
    if status == "complete":
        return self.get_result(job_id)
    time.sleep(interval)
return None
```

Modelled with the `k`-th poll happening at elapsed time `k * interval`
(the polls themselves take no time).  `checks k` is the status string of
the `k`-th poll and `getRes` the value `get_result` would return.  The
outer `Option` is `none` when the fuel ran out before the loop exited. -/
def waitForCompletionLoop (checks : Nat → String) (getRes : Option String)
    (timeout interval : ℚ) : Nat → Nat → Option (Option String)
  | 0, _ => Option.none
  | fuel + 1, k =>
    if (k : ℚ) * interval < timeout then
      if checks k = "complete" then Option.some getRes
      else waitForCompletionLoop checks getRes timeout interval fuel (k + 1)
    else Option.some Option.none

/-! ### Helper lemmas about `exponential_backoff` -/

/-- In the saturated regime the function returns `max_delay` exactly. -/
lemma exponential_backoff_saturated (attempt : Nat) (b m r : ℚ)
    (h : m ≤ b * 2 ^ attempt) :
    exponential_backoff attempt b m r = m := by
  simp only [exponential_backoff, min_eq_right h, if_pos le_rfl]

/-- Below nine tenths of `max_delay` the jitter is the bidirectional
`±10%` term. -/
lemma exponential_backoff_bidir (attempt : Nat) (b m r : ℚ)
    (hm : 0 < m) (h : b * 2 ^ attempt ≤ m * (9 / 10)) :
    exponential_backoff attempt b m r
      = b * 2 ^ attempt + b * 2 ^ attempt * (1 / 10) * (2 * r - 1) := by
  have hlt : b * 2 ^ attempt < m := by nlinarith
  simp only [exponential_backoff, min_eq_left hlt.le]
  rw [if_neg (by linarith), if_neg (by linarith)]

/-- Within ten percent of `max_delay` the jitter is one-sided, capped at
`max_delay - delay`. -/
lemma exponential_backoff_nearmax (attempt : Nat) (b m r : ℚ)
    (h1 : m * (9 / 10) < b * 2 ^ attempt) (h2 : b * 2 ^ attempt < m) :
    exponential_backoff attempt b m r
      = b * 2 ^ attempt
        + min (b * 2 ^ attempt * (1 / 10)) (m - b * 2 ^ attempt) * r := by
  simp only [exponential_backoff, min_eq_left h2.le]
  rw [if_neg (by linarith), if_pos h1]

/-- C6 counterexample: with `base_delay = 23/5` and `max_delay = 5`, the
computed delay at attempt 0 is `23/5 < 5`, yet the jitter is not
bidirectional: no value of the jitter source produces a delay below the
computed delay (at `r = 0` the function returns the computed delay
exactly), refuting the claim that the jitter is bidirectional within
`±10%` whenever the computed delay is below `max_delay`. -/
theorem c6_jitter_counterexample :
    (23 / 5 : ℚ) < 5 ∧
    exponential_backoff 0 (23 / 5) 5 0 = 23 / 5 ∧
    ¬ ∃ r : ℚ, 0 ≤ r ∧ r ≤ 1 ∧ exponential_backoff 0 (23 / 5) 5 r < 23 / 5 := by
  have key : ∀ r : ℚ, exponential_backoff 0 (23 / 5) 5 r = 23 / 5 + (2 / 5) * r := by
    intro r
    rw [exponential_backoff_nearmax 0 (23 / 5) 5 r (by norm_num) (by norm_num)]
    norm_num [min_def]
  refine ⟨by norm_num, by rw [key]; norm_num, ?_⟩
  rintro ⟨r, hr0, _, hlt⟩
  rw [key] at hlt
  nlinarith

/-- C6 (amended): for positive `base_delay` and `max_delay` and a jitter
source `r ∈ [0,1]`, the delay equals `min(base·2^attempt, maxDelay)`
plus jitter, where: (1) once the computed delay saturates at `maxDelay`
the function returns exactly `maxDelay` (hence a value within
`[0.9·maxDelay, maxDelay]`, never above it); (2) while the computed
delay is at most `0.9·maxDelay` the jitter is bidirectional within
`±10%` of the computed delay, attaining both ends; (3) when the
computed delay lies strictly between `0.9·maxDelay` and `maxDelay` the
jitter is one-sided positive and never pushes the delay above
`maxDelay`; (4) possible delays strictly increase attempt-over-attempt
as long as the next attempt is not yet saturated. -/
theorem c6_backoff_amended (attempt : Nat) (base_delay max_delay r : ℚ)
    (hb : 0 < base_delay) (hm : 0 < max_delay) (hr0 : 0 ≤ r) (hr1 : r ≤ 1) :
    (max_delay ≤ base_delay * 2 ^ attempt →
      exponential_backoff attempt base_delay max_delay r = max_delay ∧
      max_delay * (9 / 10) ≤ max_delay) ∧
    (base_delay * 2 ^ attempt ≤ max_delay * (9 / 10) →
      base_delay * 2 ^ attempt * (9 / 10)
          ≤ exponential_backoff attempt base_delay max_delay r ∧
      exponential_backoff attempt base_delay max_delay r
          ≤ base_delay * 2 ^ attempt * (11 / 10) ∧
      exponential_backoff attempt base_delay max_delay 0
          = base_delay * 2 ^ attempt * (9 / 10) ∧
      exponential_backoff attempt base_delay max_delay 1
          = base_delay * 2 ^ attempt * (11 / 10)) ∧
    (max_delay * (9 / 10) < base_delay * 2 ^ attempt →
      base_delay * 2 ^ attempt < max_delay →
      base_delay * 2 ^ attempt ≤ exponential_backoff attempt base_delay max_delay r ∧
      exponential_backoff attempt base_delay max_delay r ≤ max_delay) ∧
    (base_delay * 2 ^ (attempt + 1) < max_delay →
      ∀ r2 : ℚ, 0 ≤ r2 → r2 ≤ 1 →
        exponential_backoff attempt base_delay max_delay r
          < exponential_backoff (attempt + 1) base_delay max_delay r2) := by
  have hp : 0 < base_delay * 2 ^ attempt := by positivity
  refine ⟨?_, ?_, ?_, ?_⟩
  · intro h
    exact ⟨exponential_backoff_saturated attempt base_delay max_delay r h,
      by linarith⟩
  · intro h
    rw [exponential_backoff_bidir attempt base_delay max_delay r hm h,
        exponential_backoff_bidir attempt base_delay max_delay 0 hm h,
        exponential_backoff_bidir attempt base_delay max_delay 1 hm h]
    refine ⟨by nlinarith, by nlinarith, by ring, by ring⟩
  · intro h1 h2
    rw [exponential_backoff_nearmax attempt base_delay max_delay r h1 h2]
    constructor
    · have : 0 ≤ min (base_delay * 2 ^ attempt * (1 / 10))
          (max_delay - base_delay * 2 ^ attempt) := by
        apply le_min
        · nlinarith
        · linarith
      nlinarith
    · have h3 : min (base_delay * 2 ^ attempt * (1 / 10))
          (max_delay - base_delay * 2 ^ attempt) * r
          ≤ (max_delay - base_delay * 2 ^ attempt) * r := by
        apply mul_le_mul_of_nonneg_right (min_le_right _ _) hr0
      nlinarith
  · intro hnext r2 hr20 hr21
    have hpow : base_delay * 2 ^ (attempt + 1) = 2 * (base_delay * 2 ^ attempt) := by
      ring
    have hsmall : base_delay * 2 ^ attempt ≤ max_delay * (9 / 10) := by
      nlinarith
    have hcur :
        exponential_backoff attempt base_delay max_delay r
          ≤ base_delay * 2 ^ attempt * (11 / 10) := by
      rw [exponential_backoff_bidir attempt base_delay max_delay r hm hsmall]
      nlinarith
    rcases le_or_lt (base_delay * 2 ^ (attempt + 1)) (max_delay * (9 / 10)) with h | h
    · have hnextlo :
          base_delay * 2 ^ (attempt + 1) * (9 / 10)
            ≤ exponential_backoff (attempt + 1) base_delay max_delay r2 := by
        rw [exponential_backoff_bidir (attempt + 1) base_delay max_delay r2 hm h]
        nlinarith
      nlinarith
    · have hnextlo :
          base_delay * 2 ^ (attempt + 1)
            ≤ exponential_backoff (attempt + 1) base_delay max_delay r2 := by
        rw [exponential_backoff_nearmax (attempt + 1) base_delay max_delay r2 h hnext]
        have : 0 ≤ min (base_delay * 2 ^ (attempt + 1) * (1 / 10))
            (max_delay - base_delay * 2 ^ (attempt + 1)) := by
          apply le_min
          · nlinarith
          · linarith
        nlinarith
      nlinarith

/-- Witness for `c6_backoff_amended` at `attempt = 1`, `base_delay = 1`,
`max_delay = 5`, `r = 1/2`, `r2 = 1/3`: the hypotheses hold and the
attempt-1 delay is strictly below the attempt-2 delay. -/
theorem c6_backoff_amended_witness :
    0 < (1 : ℚ) ∧ 0 < (5 : ℚ) ∧ 0 ≤ (1 / 2 : ℚ) ∧ (1 / 2 : ℚ) ≤ 1 ∧
    exponential_backoff 1 1 5 (1 / 2) < exponential_backoff 2 1 5 (1 / 3) :=
  ⟨by norm_num, by norm_num, by norm_num, by norm_num,
    (c6_backoff_amended 1 1 5 (1 / 2) (by norm_num) (by norm_num) (by norm_num)
      (by norm_num)).2.2.2 (by norm_num) (1 / 3) (by norm_num) (by norm_num)⟩

/-! ### Progress interpretation -/

lemma baseProgress_mono {e1 e2 : ℚ} (he : e1 ≤ e2) :
    baseProgress e1 ≤ baseProgress e2 := by
  apply min_le_min le_rfl
  have : e1 / 120 ≤ e2 / 120 := by linarith
  linarith

lemma baseProgress_le (e : ℚ) : baseProgress e ≤ 99 := min_le_left _ _

lemma inProgressRank_cases (s : RemoteStatus) (r : Nat)
    (h : inProgressRank s = Option.some r) :
    s = .pending ∧ r = 0 ∨ s = .processing ∧ r = 1 ∨ s = .textSuccess ∧ r = 2 ∨
    (s = .success false ∨ s = .firstSuccess false) ∧ r = 3 := by
  cases s with
  | success b => cases b <;> simp_all [inProgressRank]
  | firstSuccess b => cases b <;> simp_all [inProgressRank]
  | _ => simp_all [inProgressRank]

/-- C8 counterexample: two immediately consecutive `check_progress`
calls on an unfinished job, the first while the remote reports
`TEXT_SUCCESS` at 60s elapsed (progress 70), the second while it
reports `PROCESSING` at 66s elapsed (progress 55): the reported
progress drops from 70 to 55, refuting non-decreasing progress across
every pair of consecutive in-progress status reports. -/
theorem c8_progress_counterexample :
    (60 : ℚ) ≤ 66 ∧
    inProgressRank .textSuccess = Option.some 2 ∧
    inProgressRank .processing = Option.some 1 ∧
    (check_progress .textSuccess 60 "t" "[60s]").2 = 70 ∧
    (check_progress .processing 66 "t" "[66s]").2 = 55 ∧
    (check_progress .processing 66 "t" "[66s]").2
      < (check_progress .textSuccess 60 "t" "[60s]").2 := by
  norm_num [check_progress, interpret_status, baseProgress, inProgressRank,
    min_def]

/-- C8 (amended): two immediately consecutive `check_progress` calls on
an unfinished job yield non-decreasing progress provided the remote
status does not move backwards along the pipeline order
`PENDING ≤ PROCESSING ≤ TEXT_SUCCESS ≤ SUCCESS-without-URL` (a backward
transition such as `TEXT_SUCCESS → PROCESSING` can lower the reported
progress). -/
theorem c8_progress_nondecreasing (s1 s2 : RemoteStatus) (e1 e2 : ℚ)
    (t1 ts1 t2 ts2 : String) (r1 r2 : Nat)
    (h1 : inProgressRank s1 = Option.some r1)
    (h2 : inProgressRank s2 = Option.some r2)
    (hr : r1 ≤ r2) (he : e1 ≤ e2) :
    (check_progress s1 e1 t1 ts1).2 ≤ (check_progress s2 e2 t2 ts2).2 := by
  have hm12 : baseProgress e1 ≤ baseProgress e2 := baseProgress_mono he
  have hb1 : baseProgress e1 ≤ 99 := baseProgress_le e1
  have hb2 : baseProgress e2 ≤ 99 := baseProgress_le e2
  rcases inProgressRank_cases s1 r1 h1 with ⟨hs1, hq1⟩ | ⟨hs1, hq1⟩ | ⟨hs1, hq1⟩ |
    ⟨hs1 | hs1, hq1⟩ <;>
    rcases inProgressRank_cases s2 r2 h2 with ⟨hs2, hq2⟩ | ⟨hs2, hq2⟩ | ⟨hs2, hq2⟩ |
      ⟨hs2 | hs2, hq2⟩ <;>
    subst_vars <;>
    first
      | (exfalso; omega)
      | (simp only [check_progress, interpret_status, check_success_state,
          if_neg Bool.false_ne_true, min_def]
         (try split_ifs) <;> linarith)

/-- Witness for `c8_progress_nondecreasing`: a `PENDING` report at 10s
followed by a `PROCESSING` report at 20s does not decrease progress. -/
theorem c8_progress_nondecreasing_witness :
    inProgressRank .pending = Option.some 0 ∧
    inProgressRank .processing = Option.some 1 ∧
    (0 : Nat) ≤ 1 ∧ (10 : ℚ) ≤ 20 ∧
    (check_progress .pending 10 "t" "[10s]").2
      ≤ (check_progress .processing 20 "t" "[20s]").2 :=
  ⟨rfl, rfl, by norm_num, by norm_num,
    c8_progress_nondecreasing .pending .processing 10 20 "t" "[10s]" "t" "[20s]"
      0 1 rfl rfl (by norm_num) (by norm_num)⟩

/-- C9: a remote report of success without an artifact URL yet is
reported as not yet complete — progress exactly 99 (strictly below
100) and a status message different from `"complete"` — and,
conversely, `check_progress` reports a progress of 100 (always with
status `"complete"`) only when a success status with a stream audio URL
has actually been observed. -/
theorem c9_success_needs_url (elapsed : ℚ) (title ts : String) :
    ((check_progress (.success false) elapsed title ts).2 = 99 ∧
     (check_progress (.success false) elapsed title ts).2 < 100 ∧
     (check_progress (.success false) elapsed title ts).1 ≠ "complete") ∧
    ((check_progress (.firstSuccess false) elapsed title ts).2 = 99 ∧
     (check_progress (.firstSuccess false) elapsed title ts).2 < 100 ∧
     (check_progress (.firstSuccess false) elapsed title ts).1 ≠ "complete") ∧
    (∀ s : RemoteStatus, 100 ≤ (check_progress s elapsed title ts).2 →
      (s = .success true ∨ s = .firstSuccess true) ∧
      (check_progress s elapsed title ts).1 = "complete") := by
  have hb : baseProgress elapsed ≤ 99 := baseProgress_le elapsed
  have hmsg : title ++ " - Finalizing " ++ ts ≠ "complete" := by
    intro h
    have hlen := congrArg String.length h
    simp only [String.length_append,
      show (" - Finalizing ").length = 14 from rfl,
      show ("complete").length = 8 from rfl] at hlen
    omega
  refine ⟨⟨?_, ?_, ?_⟩, ⟨?_, ?_, ?_⟩, ?_⟩
  · simp [check_progress, interpret_status, check_success_state]
  · simp [check_progress, interpret_status, check_success_state]
    norm_num
  · simpa [check_progress, interpret_status, check_success_state] using hmsg
  · simp [check_progress, interpret_status, check_success_state]
  · simp [check_progress, interpret_status, check_success_state]
    norm_num
  · simpa [check_progress, interpret_status, check_success_state] using hmsg
  · intro s hs
    cases s with
    | success b =>
      cases b
      · exfalso
        simp [check_progress, interpret_status, check_success_state] at hs
        linarith
      · exact ⟨Or.inl rfl, rfl⟩
    | firstSuccess b =>
      cases b
      · exfalso
        simp [check_progress, interpret_status, check_success_state] at hs
        linarith
      · exact ⟨Or.inr rfl, rfl⟩
    | pending =>
      exfalso
      have h20 : min (20 : ℚ) (baseProgress elapsed) ≤ 20 := min_le_left _ _
      simp only [check_progress, interpret_status] at hs
      linarith
    | textSuccess =>
      exfalso
      have h99 : min (99 : ℚ) (baseProgress elapsed + 20) ≤ 99 := min_le_left _ _
      simp only [check_progress, interpret_status] at hs
      linarith
    | processing =>
      exfalso
      simp only [check_progress, interpret_status] at hs
      linarith
    | unexpected raw =>
      exfalso
      simp only [check_progress, interpret_status] at hs
      linarith
    | _ =>
      exfalso
      simp [check_progress, interpret_status] at hs
      linarith

/-- Witness for `c9_success_needs_url` at elapsed time 30: the
`SUCCESS`-without-URL report is not yet complete, and a progress of 100
implies a URL-bearing success status. -/
theorem c9_success_needs_url_witness :
    (check_progress (.success false) 30 "t" "[30s]").2 = 99 ∧
    ((check_progress (.success true) 30 "t" "[30s]").2 ≥ 100 →
      ((.success true : RemoteStatus) = .success true ∨
       (.success true : RemoteStatus) = .firstSuccess true) ∧
      (check_progress (.success true) 30 "t" "[30s]").1 = "complete") :=
  ⟨(c9_success_needs_url 30 "t" "[30s]").1.1,
   fun h => (c9_success_needs_url 30 "t" "[30s]").2.2 (.success true) h⟩

/-! ### Retries and fallback -/

/-- One attempt fails in a way the retry loop tolerates: it returns a
falsy value, or raises one of the exception classes named in the
`except` clauses. -/
def attemptFails (o : Except PyErr BackendRet) : Prop :=
  (∃ r, o = .ok r ∧ r.truthy = false) ∨
  (∃ e, o = .error e ∧ caughtByMusicLib e = true)

lemma retriesLoop_exhaust (att : Nat → Except PyErr BackendRet)
    (hfail : ∀ k, k < MAX_RETRIES → attemptFails (att k)) :
    ∀ rem k, rem + k = MAX_RETRIES →
      retriesLoop att rem k = (.ok (Option.none, Option.none), rem) := by
  intro rem
  induction rem with
  | zero => intro k _; rfl
  | succ n ih =>
    intro k hk
    have hklt : k < MAX_RETRIES := by omega
    rcases hfail k hklt with ⟨r, hr, hrt⟩ | ⟨e, he, hec⟩
    · simp only [retriesLoop, hr, hrt, if_false, Bool.false_eq_true]
      by_cases hlast : k < MAX_RETRIES - 1
      · rw [if_pos hlast, ih (k + 1) (by omega)]
      · rw [if_neg hlast]
        have : n = 0 := by simp only [MAX_RETRIES] at *; omega
        simp [this]
    · simp only [retriesLoop, he, hec, if_true]
      by_cases hlast : k = MAX_RETRIES - 1
      · rw [if_pos hlast]
        have : n = 0 := by simp only [MAX_RETRIES] at *; omega
        simp [this]
      · rw [if_neg hlast, ih (k + 1) (by omega)]

/-- When every attempt fails benignly, the retry loop makes exactly
`MAX_RETRIES` attempts and returns `(None, None)`. -/
lemma tryGenerateWithRetries_exhaust (att : Nat → Except PyErr BackendRet)
    (hfail : ∀ k, k < MAX_RETRIES → attemptFails (att k)) :
    tryGenerateWithRetries att = (.ok (Option.none, Option.none), MAX_RETRIES) :=
  retriesLoop_exhaust att hfail MAX_RETRIES 0 rfl

/-- Every return path of `generate_with_lyrics` is reached after the
single `self.backend.start_generation` call — the method has no retry
loop. -/
lemma generateWithLyrics_starts (ops : BackendOps) (outputPath : Option String)
    (fuel : Nat) : (generateWithLyrics ops outputPath fuel).primaryStarts = 1 := by
  unfold generateWithLyrics
  cases ops.startGen with
  | error e => rfl
  | ok j =>
    by_cases hj : optTruthy j
    · simp only [hj, if_true]
      cases hp : pollLoop ops.checkProgress fuel 0 with
      | none => rfl
      | some x =>
        cases x with
        | error e => rfl
        | ok u =>
          cases ops.getResult with
          | error e => rfl
          | ok r => by_cases hr : r.truthy <;> simp [hr]
    · simp [hj]

/-- The method `generate_with_lyrics` never touches `self.fallback_backend`. -/
lemma generateWithLyrics_no_fallback (ops : BackendOps) (outputPath : Option String)
    (fuel : Nat) : (generateWithLyrics ops outputPath fuel).fallbackCalls = 0 := by
  unfold generateWithLyrics
  cases ops.startGen with
  | error e => rfl
  | ok j =>
    by_cases hj : optTruthy j
    · simp only [hj, if_true]
      cases hp : pollLoop ops.checkProgress fuel 0 with
      | none => rfl
      | some x =>
        cases x with
        | error e => rfl
        | ok u =>
          cases ops.getResult with
          | error e => rfl
          | ok r => by_cases hr : r.truthy <;> simp [hr]
    · simp [hj]

/-- The concrete backend behaviour in which every `start_generation`
call fails by returning `None`. -/
def startFalsyOps : BackendOps :=
  ⟨.ok Option.none, fun _ => .ok ("", 0), .ok .none, true⟩

/-- C3 counterexample: a lyrical (story-driven) generation request
against a primary backend that always fails invokes the primary backend
exactly once — not `MAX_RETRIES` (5) times — before returning a failure
result: `generate_with_lyrics` has no retry loop at all. -/
theorem c3_lyrical_no_retries_counterexample :
    (generateWithLyrics startFalsyOps Option.none 1).primaryStarts = 1 ∧
    (generateWithLyrics startFalsyOps Option.none 1).ret
      = Option.some (.ok (.pair Option.none Option.none)) ∧
    (1 : Nat) ≠ MAX_RETRIES := by
  exact ⟨rfl, rfl, by decide⟩

/-- C3 (amended): an *instrumental* generation request against a
primary backend whose attempts always fail invokes the primary backend
exactly `MAX_RETRIES` (5) times before the fallback is attempted (or
before the method gives up if no fallback is configured), whereas a
lyrical request invokes `start_generation` on the primary backend
exactly once, with no retry loop. -/
theorem c3_retry_budget_amended (att : Nat → Except PyErr BackendRet)
    (fb : Option (Except PyErr BackendRet)) (ops : BackendOps)
    (outputPath : Option String) (fuel : Nat)
    (hfail : ∀ k, k < MAX_RETRIES → attemptFails (att k)) :
    tryGenerateWithRetries att = (.ok (Option.none, Option.none), MAX_RETRIES) ∧
    (generateInstrumental att fb).primaryCalls = MAX_RETRIES ∧
    (generateWithLyrics ops outputPath fuel).primaryStarts = 1 := by
  have h := tryGenerateWithRetries_exhaust att hfail
  refine ⟨h, ?_, generateWithLyrics_starts ops outputPath fuel⟩
  unfold generateInstrumental
  rw [h]
  cases fb with
  | none => simp [optTruthy]
  | some fbRet =>
    cases fbRet with
    | error e => simp [optTruthy]
    | ok r => by_cases hr : r.truthy <;> simp [optTruthy, hr]

/-- Witness for `c3_retry_budget_amended`: a primary backend returning
`None` from every attempt is attempted exactly 5 times. -/
theorem c3_retry_budget_amended_witness :
    attemptFails (.ok BackendRet.none) ∧
    tryGenerateWithRetries (fun _ => .ok BackendRet.none)
      = (.ok (Option.none, Option.none), MAX_RETRIES) ∧
    (generateInstrumental (fun _ => .ok BackendRet.none) Option.none).primaryCalls
      = MAX_RETRIES :=
  ⟨Or.inl ⟨BackendRet.none, rfl, rfl⟩,
   (c3_retry_budget_amended (fun _ => .ok BackendRet.none) Option.none
      startFalsyOps Option.none 1
      (fun _ _ => Or.inl ⟨BackendRet.none, rfl, rfl⟩)).1,
   (c3_retry_budget_amended (fun _ => .ok BackendRet.none) Option.none
      startFalsyOps Option.none 1
      (fun _ _ => Or.inl ⟨BackendRet.none, rfl, rfl⟩)).2.1⟩

/-- The concrete backend behaviour in which every `start_generation`
call raises `RuntimeError` (one of the classes the instrumental path
catches). -/
def raisingOps : BackendOps :=
  ⟨.error .runtimeError, fun _ => .ok ("", 0), .ok .none, true⟩

/-- C4 counterexample: against a backend whose every attempt raises
`RuntimeError`, the instrumental path treats each attempt as one failed
attempt, exhausts its 5 retries and invokes the fallback exactly once —
but the otherwise-identical lyrical request does *not* return a failure
result: `generate_with_lyrics` has no exception handling, so the
`RuntimeError` propagates to the caller instead of `(None, None)`. -/
theorem c4_lyrical_raises_counterexample :
    tryGenerateWithBackend raisingOps Option.none 1 = Option.some (.ok .none) ∧
    generateInstrumental (fun _ => .ok BackendRet.none)
        (Option.some (.ok BackendRet.none))
      = ⟨.ok (Option.none, Option.none), MAX_RETRIES, 1⟩ ∧
    (generateWithLyrics raisingOps Option.none 1).ret
      = Option.some (.error .runtimeError) ∧
    Option.some (Except.error PyErr.runtimeError)
      ≠ Option.some (Except.ok (LyricsRet.pair Option.none Option.none)) := by
  refine ⟨rfl, rfl, rfl, by simp⟩

/-- C4 (amended): an instrumental request whose primary backend
exhausts its retries invokes the configured fallback backend exactly
once, with no retry loop, and returns a failure result `(None, None)`
if the fallback also fails; an otherwise-identical lyrical request
never invokes the fallback, and returns the failure result `(None,
None)` when the backend fails by returning a falsy job id — but a
backend exception propagates out of the lyrical path instead. -/
theorem c4_fallback_once_amended (att : Nat → Except PyErr BackendRet)
    (fbRet : Except PyErr BackendRet) (ops : BackendOps)
    (outputPath : Option String) (fuel : Nat)
    (hfail : ∀ k, k < MAX_RETRIES → attemptFails (att k))
    (hfb : ∃ r, fbRet = .ok r ∧ r.truthy = false)
    (hstart : ops.startGen = .ok Option.none) :
    (generateInstrumental att (Option.some fbRet)).fallbackCalls = 1 ∧
    (generateInstrumental att (Option.some fbRet)).ret
      = .ok (Option.none, Option.none) ∧
    (generateWithLyrics ops outputPath fuel).fallbackCalls = 0 ∧
    (generateWithLyrics ops outputPath fuel).ret
      = Option.some (.ok (.pair Option.none Option.none)) := by
  obtain ⟨r, hr, hrt⟩ := hfb
  have h := tryGenerateWithRetries_exhaust att hfail
  have hlyr : generateWithLyrics ops outputPath fuel
      = ⟨Option.some (.ok (.pair Option.none Option.none)), 1, 0⟩ := by
    unfold generateWithLyrics
    rw [hstart]
    simp [optTruthy]
  refine ⟨?_, ?_, ?_, ?_⟩
  · unfold generateInstrumental
    rw [h, hr]
    simp [optTruthy, hrt]
  · unfold generateInstrumental
    rw [h, hr]
    simp [optTruthy, hrt]
  · rw [hlyr]
  · rw [hlyr]

/-- Witness for `c4_fallback_once_amended`: start-failures on both the
primary and the fallback lead to one fallback call and a `(None, None)`
result, while the lyrical path returns `(None, None)` without touching
the fallback. -/
theorem c4_fallback_once_amended_witness :
    attemptFails (.ok BackendRet.none) ∧
    startFalsyOps.startGen = .ok Option.none ∧
    (generateInstrumental (fun _ => .ok BackendRet.none)
        (Option.some (.ok BackendRet.none))).fallbackCalls = 1 ∧
    (generateWithLyrics startFalsyOps Option.none 1).fallbackCalls = 0 :=
  ⟨Or.inl ⟨BackendRet.none, rfl, rfl⟩, rfl,
   (c4_fallback_once_amended (fun _ => .ok BackendRet.none)
      (.ok BackendRet.none) startFalsyOps Option.none 1
      (fun _ _ => Or.inl ⟨BackendRet.none, rfl, rfl⟩)
      ⟨BackendRet.none, rfl, rfl⟩ rfl).1,
   (c4_fallback_once_amended (fun _ => .ok BackendRet.none)
      (.ok BackendRet.none) startFalsyOps Option.none 1
      (fun _ _ => Or.inl ⟨BackendRet.none, rfl, rfl⟩)
      ⟨BackendRet.none, rfl, rfl⟩ rfl).2.2.1⟩

/-- The concrete backend behaviour in which every `start_generation`
call raises an exception class outside the caught tuple (e.g.
`KeyError`). -/
def otherRaisingOps : BackendOps :=
  ⟨.error .otherExc, fun _ => .ok ("", 0), .ok .none, true⟩

/-- C5 counterexample: an unexpected exception of a class outside
`(OSError, RuntimeError, ValueError, TimeoutError)` raised by a backend
operation is *not* caught: it propagates out of
`_try_generate_with_backend` and out of `_try_generate_with_retries`
to the caller after a single attempt, refuting the claim that any
unexpected exception is caught inside the generate method. -/
theorem c5_uncaught_exception_counterexample :
    tryGenerateWithBackend otherRaisingOps Option.none 1
      = Option.some (.error .otherExc) ∧
    tryGenerateWithRetries (fun _ => .error .otherExc) = (.error .otherExc, 1) := by
  exact ⟨rfl, rfl⟩

lemma retriesLoop_ok_of_caught (att : Nat → Except PyErr BackendRet)
    (hatt : ∀ k e, att k = .error e → caughtByMusicLib e = true) :
    ∀ rem k, ∃ v c, retriesLoop att rem k = (.ok v, c) := by
  intro rem
  induction rem with
  | zero => intro k; exact ⟨(Option.none, Option.none), 0, rfl⟩
  | succ n ih =>
    intro k
    cases hak : att k with
    | ok r =>
      by_cases hr : r.truthy
      · exact ⟨normalizeRet r, 1, by simp [retriesLoop, hak, hr]⟩
      · by_cases hlast : k < MAX_RETRIES - 1
        · obtain ⟨v, c, hvc⟩ := ih (k + 1)
          exact ⟨v, c + 1, by simp [retriesLoop, hak, hr, hlast, hvc]⟩
        · exact ⟨(Option.none, Option.none), 1, by simp [retriesLoop, hak, hr, hlast]⟩
    | error e =>
      have hc := hatt k e hak
      by_cases hlast : k = MAX_RETRIES - 1
      · subst hlast
        exact ⟨(Option.none, Option.none), 1, by simp [retriesLoop, hak, hc]⟩
      · obtain ⟨v, c, hvc⟩ := ih (k + 1)
        exact ⟨v, c + 1, by simp [retriesLoop, hak, hc, hlast, hvc]⟩

/-- C5 (amended): a backend-level failure raised as one of the classes
`OSError`, `RuntimeError`, `ValueError` or `TimeoutError` — at
submission, polling or download — is caught inside
`_try_generate_with_backend`, converted into a failed attempt (`None`),
and never propagates out of the retry loop; only exceptions of a class
outside that tuple propagate to the caller. -/
theorem c5_failures_caught_amended (ops : BackendOps) (outputPath : Option String)
    (fuel : Nat) (att : Nat → Except PyErr BackendRet) (e : PyErr)
    (hcaught : caughtByMusicLib e = true)
    (hbody : tryGenerateWithBackendBody ops outputPath fuel
      = Option.some (.error e))
    (hatt : ∀ k e2, att k = .error e2 → caughtByMusicLib e2 = true) :
    tryGenerateWithBackend ops outputPath fuel = Option.some (.ok .none) ∧
    (∀ e3, tryGenerateWithBackend ops outputPath fuel
        = Option.some (.error e3) → caughtByMusicLib e3 = false) ∧
    (∃ v c, tryGenerateWithRetries att = (.ok v, c)) := by
  refine ⟨?_, ?_, retriesLoop_ok_of_caught att hatt MAX_RETRIES 0⟩
  · unfold tryGenerateWithBackend
    rw [hbody]
    simp [hcaught]
  · intro e3 h3
    unfold tryGenerateWithBackend at h3
    rw [hbody] at h3
    simp [hcaught] at h3

/-- Witness for `c5_failures_caught_amended`: a `RuntimeError` raised at
submission is absorbed into a failed attempt. -/
theorem c5_failures_caught_amended_witness :
    caughtByMusicLib .runtimeError = true ∧
    tryGenerateWithBackendBody raisingOps Option.none 1
      = Option.some (.error .runtimeError) ∧
    tryGenerateWithBackend raisingOps Option.none 1 = Option.some (.ok .none) :=
  ⟨rfl, rfl,
   (c5_failures_caught_amended raisingOps Option.none 1
      (fun _ => .ok BackendRet.none) .runtimeError rfl rfl
      (fun _ _ h => by simp at h)).1⟩

/-! ### Poll loops and termination -/

/-- The progress stream observed when polling a job stuck in the
`GENERATE_AUDIO_FAILED` remote state every 5 seconds: every poll
reports progress 0. -/
def stuckFailedCheck : Nat → Except PyErr (String × ℚ) :=
  fun n => .ok (check_progress .generateAudioFailed (5 * (n : ℚ)) "t" "[ts]")

lemma stuckFailedCheck_progress (n : Nat) :
    stuckFailedCheck n
      = .ok ("t - Error: Audio generation failed", 0) := rfl

/-- C7 counterexample: the inline poll loop of the generate methods
(`while True: ...; if progress >= 100: break; time.sleep(5)`) has no
timeout and no failed-status exit; on a job stuck in a failed remote
state (which reports progress 0 on every poll) no finite number of
polls ever makes it exit — the attempt keeps polling forever, refuting
the claim that the wait loop of every attempt terminates. -/
theorem c7_inline_poll_counterexample :
    ¬ ∃ fuel k, (pollLoop stuckFailedCheck fuel k).isSome = true := by
  rintro ⟨fuel, k, h⟩
  induction fuel generalizing k with
  | zero => simp [pollLoop] at h
  | succ n ih =>
    rw [pollLoop, stuckFailedCheck_progress] at h
    norm_num at h
    exact ih _ h

lemma waitForCompletionLoop_total (checks : Nat → String) (getRes : Option String)
    (timeout interval : ℚ) :
    ∀ fuel k, timeout ≤ ((k + fuel : Nat) : ℚ) * interval →
      ∃ out, waitForCompletionLoop checks getRes timeout interval (fuel + 1) k
        = Option.some out := by
  intro fuel
  induction fuel with
  | zero =>
    intro k hk
    rw [waitForCompletionLoop]
    rw [if_neg (by push_cast at hk ⊢; linarith)]
    exact ⟨Option.none, rfl⟩
  | succ n ih =>
    intro k hk
    rw [waitForCompletionLoop]
    by_cases hc : (k : ℚ) * interval < timeout
    · rw [if_pos hc]
      by_cases hdone : checks k = "complete"
      · rw [if_pos hdone]; exact ⟨getRes, rfl⟩
      · rw [if_neg hdone]
        exact ih (k + 1) (by push_cast at hk ⊢; linarith)
    · rw [if_neg hc]
      exact ⟨Option.none, rfl⟩

lemma waitForCompletionLoop_never_complete (checks : Nat → String)
    (getRes : Option String) (timeout interval : ℚ)
    (hnc : ∀ j, checks j ≠ "complete") :
    ∀ fuel k out, waitForCompletionLoop checks getRes timeout interval fuel k
      = Option.some out → out = Option.none := by
  intro fuel
  induction fuel with
  | zero => intro k out h; simp [waitForCompletionLoop] at h
  | succ n ih =>
    intro k out h
    rw [waitForCompletionLoop] at h
    by_cases hc : (k : ℚ) * interval < timeout
    · rw [if_pos hc, if_neg (hnc k)] at h
      exact ih (k + 1) out h
    · rw [if_neg hc] at h
      exact (Option.some.inj h).symm

lemma pollLoop_exit_needs_100 (check : Nat → Except PyErr (String × ℚ)) :
    ∀ fuel k, pollLoop check fuel k = Option.some (.ok ()) →
      ∃ n s pr, check n = .ok (s, pr) ∧ 100 ≤ pr := by
  intro fuel
  induction fuel with
  | zero => intro k h; simp [pollLoop] at h
  | succ n ih =>
    intro k h
    rw [pollLoop] at h
    cases hck : check k with
    | error e => rw [hck] at h; simp at h
    | ok sp =>
      obtain ⟨s1, p1⟩ := sp
      simp only [hck] at h
      by_cases hp : (100 : ℚ) ≤ p1
      · exact ⟨k, s1, p1, hck, hp⟩
      · rw [if_neg hp] at h
        exact ih (k + 1) h

/-- C7 (amended): the base-class helper `wait_for_completion` always
terminates — within `⌈timeout⌉ + 1` polls when the poll interval is at
least one second — returning the value of `get_result` on a `"complete"`
status and `None` at timeout, which is also how a job stuck in a failed
status ends there; the inline poll loop actually used by the generate
methods, however, exits only when some poll reports a progress of at
least 100 (it has no timeout). -/
theorem c7_poll_termination_amended (checks : Nat → String) (getRes : Option String)
    (timeout interval : ℚ) (pcheck : Nat → Except PyErr (String × ℚ))
    (hi : 1 ≤ interval) :
    (∃ out, waitForCompletionLoop checks getRes timeout interval
        (⌈timeout⌉.toNat + 1) 0 = Option.some out) ∧
    ((∀ j, checks j ≠ "complete") →
      ∀ fuel k out, waitForCompletionLoop checks getRes timeout interval fuel k
        = Option.some out → out = Option.none) ∧
    (checks 0 = "complete" → 0 < timeout →
      waitForCompletionLoop checks getRes timeout interval
        (⌈timeout⌉.toNat + 1) 0 = Option.some getRes) ∧
    (∀ fuel k, pollLoop pcheck fuel k = Option.some (.ok ()) →
      ∃ n s pr, pcheck n = .ok (s, pr) ∧ 100 ≤ pr) := by
  have hceil : timeout ≤ ((0 + ⌈timeout⌉.toNat : Nat) : ℚ) * interval := by
    have h1 : timeout ≤ (⌈timeout⌉ : ℚ) := Int.le_ceil timeout
    have h2 : (⌈timeout⌉ : ℚ) ≤ ((⌈timeout⌉.toNat : ℤ) : ℚ) := by
      exact_mod_cast Int.self_le_toNat _
    have h3 : (0 : ℚ) ≤ ((⌈timeout⌉.toNat : Nat) : ℚ) := by positivity
    push_cast at h2 ⊢
    nlinarith
  refine ⟨waitForCompletionLoop_total checks getRes timeout interval
      ⌈timeout⌉.toNat 0 hceil,
    waitForCompletionLoop_never_complete checks getRes timeout interval, ?_,
    pollLoop_exit_needs_100 pcheck⟩
  intro hdone hpos
  rw [waitForCompletionLoop]
  rw [if_pos (by push_cast; linarith), if_pos hdone]

/-- Witness for `c7_poll_termination_amended`: with a 5-second interval
and a 7-second timeout, a stream that reports `"complete"` on the first
poll makes `wait_for_completion` return the value of `get_result`. -/
theorem c7_poll_termination_amended_witness :
    (1 : ℚ) ≤ 5 ∧ (fun _ : Nat => "complete") 0 = "complete" ∧ (0 : ℚ) < 7 ∧
    waitForCompletionLoop (fun _ => "complete") (Option.some "a.mp3") 7 5
      (⌈(7 : ℚ)⌉.toNat + 1) 0 = Option.some (Option.some "a.mp3") :=
  ⟨by norm_num, rfl, by norm_num,
   (c7_poll_termination_amended (fun _ => "complete") (Option.some "a.mp3") 7 5
      (fun _ => .ok ("", 0)) (by norm_num)).2.2.1 rfl (by norm_num)⟩

/-! ### Pipeline orchestration -/

/-- The value `_collect_task_results` leaves in `movie_poster_path`: the
value of the poster future if the task was submitted and resolved, `None`
(the initial value) otherwise. -/
def posterField (env : StoryEnv) : Option String :=
  match env.poster with
  | Option.some (.ok v) => v
  | _ => Option.none

/-- The value left in `background_music_path` (reset to `None` when the
future raised). -/
def bgmField (env : StoryEnv) : Option String :=
  match env.bgm with
  | Option.some (.ok v) => v
  | _ => Option.none

/-- The value left in `closing_credits_path`. -/
def creditsField (env : StoryEnv) : Option String :=
  match env.credits with
  | Option.some (.ok (p, _)) => p
  | _ => Option.none

/-- The value left in `closing_credits_lyrics`. -/
def creditsLyricsField (env : StoryEnv) : Option String :=
  match env.credits with
  | Option.some (.ok (_, l)) => l
  | _ => Option.none

lemma collect_aux_fold (env : StoryEnv) :
    (optFuture TaskFuture.moviePoster env.poster
      ++ optFuture TaskFuture.backgroundMusic env.bgm
      ++ optFuture TaskFuture.closingCredits env.credits).foldl collectStep {}
    = { moviePoster := posterField env, backgroundMusic := bgmField env,
        closingCredits := creditsField env,
        closingCreditsLyrics := creditsLyricsField env,
        segments := [], segmentIndices := [] } := by
  rcases hp : env.poster with _ | ep | vp <;>
    rcases hb : env.bgm with _ | eb | vb <;>
      rcases hc : env.credits with _ | ec | ⟨pc, lc⟩ <;>
        simp [optFuture, collectStep, posterField, bgmField, creditsField,
          creditsLyricsField, hp, hb, hc]

lemma collect_seg_fold (env : StoryEnv) (l : List Nat) :
    ∀ st : CollectState,
      ((l.map (fun i =>
          TaskFuture.segment i ((env.seg i).map (fun p => (p, i))))).foldl
        collectStep st)
      = { st with
          segments := st.segments ++ (l.filterMap (segSuccess env)).map Prod.fst,
          segmentIndices :=
            st.segmentIndices ++ (l.filterMap (segSuccess env)).map Prod.snd } := by
  induction l with
  | nil => intro st; simp
  | cons i t ih =>
    intro st
    simp only [List.map_cons, List.foldl_cons, List.filterMap_cons]
    cases hseg : env.seg i with
    | error e =>
      have hmap : Except.map (fun p => (p, i)) (Except.error e : Except PyErr (Option String))
          = (Except.error e : Except PyErr (Option String × Nat)) := rfl
      have hss : segSuccess env i = Option.none := by simp [segSuccess, hseg]
      have hstep :
          collectStep st (TaskFuture.segment i (Except.error e)) = st := rfl
      rw [hmap, hstep, ih st, hss]
    | ok p =>
      cases p with
      | none =>
        have hmap : Except.map (fun p => (p, i))
              (Except.ok (Option.none : Option String) : Except PyErr (Option String))
            = Except.ok ((Option.none : Option String), i) := rfl
        have hss : segSuccess env i = Option.none := by simp [segSuccess, hseg]
        have hstep :
            collectStep st
                (TaskFuture.segment i (Except.ok ((Option.none : Option String), i)))
              = st := rfl
        rw [hmap, hstep, ih st, hss]
      | some pathStr =>
        have hmap : Except.map (fun p => (p, i))
              (Except.ok (Option.some pathStr) : Except PyErr (Option String))
            = Except.ok (Option.some pathStr, i) := rfl
        by_cases he : pathStr.isEmpty
        · have hss : segSuccess env i = Option.none := by
            simp [segSuccess, hseg, he]
          have hstep :
              collectStep st
                  (TaskFuture.segment i (Except.ok (Option.some pathStr, i)))
                = st := by simp [collectStep, he]
          rw [hmap, hstep, ih st, hss]
        · have hss : segSuccess env i = Option.some (pathStr, i) := by
            simp [segSuccess, hseg, he]
          have hstep :
              collectStep st
                  (TaskFuture.segment i (Except.ok (Option.some pathStr, i)))
                = { st with segments := st.segments ++ [pathStr],
                            segmentIndices := st.segmentIndices ++ [i] } := by
            simp [collectStep, he]
          rw [hmap, hstep, ih, hss]
          simp

lemma collect_task_results_build (env : StoryEnv) (n : Nat) :
    collect_task_results (buildFutures env n)
      = { moviePoster := posterField env, backgroundMusic := bgmField env,
          closingCredits := creditsField env,
          closingCreditsLyrics := creditsLyricsField env,
          segments := (successfulSegments env n).map Prod.fst,
          segmentIndices := (successfulSegments env n).map Prod.snd } := by
  unfold collect_task_results buildFutures
  rw [List.foldl_append, collect_aux_fold, collect_seg_fold]
  simp [successfulSegments]

lemma segSuccess_snd (env : StoryEnv) (i : Nat) (x : String × Nat)
    (h : segSuccess env i = Option.some x) : x.2 = i := by
  cases hseg : env.seg i with
  | error e => simp [segSuccess, hseg] at h
  | ok p =>
    cases p with
    | none => simp [segSuccess, hseg] at h
    | some s =>
      by_cases he : s.isEmpty
      · simp [segSuccess, hseg, he] at h
      · simp only [segSuccess, hseg, if_neg he, Option.some.injEq] at h
        subst h
        rfl

lemma successfulSegments_pairwise (env : StoryEnv) (n : Nat) :
    (successfulSegments env n).Pairwise (fun a b => a.2 < b.2) := by
  unfold successfulSegments
  have key : ∀ l : List Nat, l.Pairwise (· < ·) →
      (l.filterMap (segSuccess env)).Pairwise (fun a b => a.2 < b.2) := by
    intro l hl
    induction hl with
    | nil => simp
    | @cons x rest hx _ ih =>
      cases hsx : segSuccess env x with
      | none => simpa [List.filterMap_cons, hsx] using ih
      | some v =>
        simp only [List.filterMap_cons, hsx]
        refine List.Pairwise.cons ?_ ih
        intro w hw
        obtain ⟨j, hj, hsj⟩ := List.mem_filterMap.mp hw
        rw [segSuccess_snd env x v hsx, segSuccess_snd env j w hsj]
        exact hx j hj
  exact key (List.range n) (List.pairwise_lt_range n)

lemma insertByIdx_all_le (x : String × Nat) :
    ∀ l : List (String × Nat), (∀ y ∈ l, y.2 ≤ x.2) → insertByIdx x l = l ++ [x] := by
  intro l
  induction l with
  | nil => intro _; rfl
  | cons y t ih =>
    intro h
    rw [insertByIdx, if_pos (h y (List.mem_cons_self y t)),
      ih (fun z hz => h z (List.mem_cons_of_mem y hz))]
    rfl

lemma pySorted_go (l : List (String × Nat)) :
    ∀ acc : List (String × Nat),
      (∀ y ∈ acc, ∀ z ∈ l, y.2 ≤ z.2) →
      l.Pairwise (fun a b => a.2 ≤ b.2) →
      l.foldl (fun acc x => insertByIdx x acc) acc = acc ++ l := by
  induction l with
  | nil => intro acc _ _; simp
  | cons x t ih =>
    intro acc hacc hl
    rw [List.foldl_cons,
      insertByIdx_all_le x acc (fun y hy => hacc y hy x (List.mem_cons_self x t)),
      ih (acc ++ [x]) ?_ (List.Pairwise.of_cons hl)]
    · simp
    · intro y hy z hz
      rcases List.mem_append.mp hy with hy1 | hy1
      · exact hacc y hy1 z (List.mem_cons_of_mem x hz)
      · rw [List.mem_singleton.mp hy1]
        exact List.rel_of_pairwise_cons hl hz

/-- A list already sorted (weakly) by its key is a fixed point of the
stable sort. -/
lemma pySortedByIdx_of_sorted (l : List (String × Nat))
    (hl : l.Pairwise (fun a b => a.2 ≤ b.2)) : pySortedByIdx l = l := by
  unfold pySortedByIdx
  simpa using pySorted_go l [] (by simp) hl

lemma zip_map_fst_snd (l : List (String × Nat)) :
    (l.map Prod.fst).zip (l.map Prod.snd) = l := by
  induction l with
  | nil => rfl
  | cons x t ih => simp [ih]

lemma order_segments_of_sorted (S : List (String × Nat))
    (hp : S.Pairwise (fun a b => a.2 < b.2)) :
    order_segments (S.map Prod.fst) (S.map Prod.snd) = S.map Prod.fst := by
  unfold order_segments
  rw [zip_map_fst_snd, pySortedByIdx_of_sorted S (hp.imp le_of_lt)]

lemma processStoryBody_of_success (story : List String) (env : StoryEnv)
    (hne : story ≠ [])
    (hs : successfulSegments env story.length ≠ []) :
    processStoryBody story env
      = .ok (Option.some ((successfulSegments env story.length).map Prod.fst),
          bgmField env, creditsField env, posterField env,
          creditsLyricsField env) := by
  have hne2 : ¬ (story.isEmpty = true) := fun h => hne (List.isEmpty_iff.mp h)
  have hmap : (successfulSegments env story.length).map Prod.fst ≠ [] :=
    fun h => hs (List.map_eq_nil_iff.mp h)
  have hmap2 : ¬ (((successfulSegments env story.length).map Prod.fst).isEmpty
      = true) := fun h => hmap (List.isEmpty_iff.mp h)
  simp only [processStoryBody, collect_task_results_build]
  rw [if_neg hne2, if_neg hmap2,
    order_segments_of_sorted _ (successfulSegments_pairwise env story.length)]

/-- C1: for every story and every subset of segment tasks that succeed
(at least one), the segment list returned by `process_story` is exactly
the successful segments listed by ascending original submission index —
failed indices are dropped with no holes or `None` padding, surviving
segments keep their relative order — independently of the order in
which the concurrent tasks complete (the value of each future is fixed and
collection iterates futures in submission order). -/
theorem c1_segment_ordering (story : List String) (env : StoryEnv)
    (hne : story ≠ [])
    (hs : successfulSegments env story.length ≠ []) :
    (process_story story env).1
      = Option.some ((successfulSegments env story.length).map Prod.fst) ∧
    ((successfulSegments env story.length).map Prod.snd).Pairwise (· < ·) := by
  constructor
  · unfold process_story
    rw [processStoryBody_of_success story env hne hs]
  · exact List.pairwise_map.mpr
      ((successfulSegments_pairwise env story.length).imp (fun h => h))

/-- Environment used by the witnesses: the poster task succeeds, the
background-music task raises, no closing-credits task is submitted, and
every segment except index 1 succeeds. -/
def envW : StoryEnv :=
  ⟨Option.some (.ok (Option.some "poster.png")),
   Option.some (.error .runtimeError),
   Option.none,
   fun i => if i = 1 then .ok Option.none else .ok (Option.some "seg.mp4")⟩

/-- Witness for `c1_segment_ordering`: a three-sentence story whose
middle segment fails yields the two surviving segments in index order. -/
theorem c1_segment_ordering_witness :
    (["a", "b", "c"] : List String) ≠ [] ∧
    successfulSegments envW 3 = [("seg.mp4", 0), ("seg.mp4", 2)] ∧
    (process_story ["a", "b", "c"] envW).1
      = Option.some ((successfulSegments envW 3).map Prod.fst) :=
  ⟨by simp, by rfl,
   (c1_segment_ordering ["a", "b", "c"] envW (by simp) (by decide)).1⟩

/-- C2: if every segment task fails, `process_story` returns the
all-`None` five-tuple without raising; if at least one segment task
succeeds, the pipeline call does not fail (the returned segment list is
non-null and non-empty), and each auxiliary field (background music,
closing credits, movie poster, closing-credits lyrics) is a function of
only the outcome of its own task — a failed auxiliary task leaves only its
own field `None` without aborting the pipeline or affecting the other
fields. -/
theorem c2_criticality_policy (story : List String) (env : StoryEnv)
    (hne : story ≠ []) :
    (successfulSegments env story.length = [] →
      process_story story env
        = (Option.none, Option.none, Option.none, Option.none, Option.none)) ∧
    (successfulSegments env story.length ≠ [] →
      process_story story env
        = (Option.some ((successfulSegments env story.length).map Prod.fst),
           bgmField env, creditsField env, posterField env,
           creditsLyricsField env) ∧
      (successfulSegments env story.length).map Prod.fst ≠ []) := by
  have hne2 : ¬ (story.isEmpty = true) := fun h => hne (List.isEmpty_iff.mp h)
  constructor
  · intro hempty
    unfold process_story
    simp only [processStoryBody, collect_task_results_build]
    rw [if_neg hne2, hempty]
    rfl
  · intro hs
    refine ⟨?_, fun h => hs (List.map_eq_nil_iff.mp h)⟩
    unfold process_story
    rw [processStoryBody_of_success story env hne hs]

/-- Environment in which every task fails: the poster and
background-music futures raise, the closing-credits future resolves to
a double-`None` pair, and every segment returns `None`. -/
def envAllFail : StoryEnv :=
  ⟨Option.some (.error .runtimeError), Option.some (.error .osError),
   Option.some (.ok (Option.none, Option.none)),
   fun _ => .ok Option.none⟩

/-- Witness for `c2_criticality_policy`: with every segment failing the
pipeline returns the all-`None` tuple. -/
theorem c2_criticality_policy_witness :
    (["a", "b"] : List String) ≠ [] ∧
    successfulSegments envAllFail 2 = [] ∧
    process_story ["a", "b"] envAllFail
      = (Option.none, Option.none, Option.none, Option.none, Option.none) :=
  ⟨by simp, rfl,
   (c2_criticality_policy ["a", "b"] envAllFail (by simp)).1 rfl⟩

/-- C10: `process_story` never propagates an exception to its caller:
its own `except Exception` handler converts every internal error —
including the `ValueError` raised for an empty story, despite the
docstring advertising that it is raised — into the all-`None`
five-tuple. -/
theorem c10_no_exception_escape (story : List String) (env : StoryEnv) :
    (story = [] →
      processStoryBody story env = .error .valueError ∧
      process_story story env
        = (Option.none, Option.none, Option.none, Option.none, Option.none)) ∧
    (∀ e, processStoryBody story env = .error e →
      process_story story env
        = (Option.none, Option.none, Option.none, Option.none, Option.none)) := by
  constructor
  · rintro rfl
    exact ⟨rfl, rfl⟩
  · intro e h
    unfold process_story
    rw [h]

/-- Witness for `c10_no_exception_escape`: the empty story makes the
body raise `ValueError` and the function return the all-`None` tuple. -/
theorem c10_no_exception_escape_witness :
    ([] : List String) = [] ∧
    process_story [] envW
      = (Option.none, Option.none, Option.none, Option.none, Option.none) :=
  ⟨rfl, ((c10_no_exception_escape [] envW).1 rfl).2⟩

end GangliaStudio
